import Mathlib

/-!
Verification development for the flight-search backend (Express app over the
Amadeus flight-offers API).  The definitions below are a shallow embedding of
the trip-type-aware handler in the repository (the file that defines
mapOfferToOption with a per-segment fare map and the /search_flights endpoint
with oneway / roundtrip / multi branches), plus the earlier basic handler in
src/app.js.  JavaScript dynamics that matter to the claims are modelled
explicitly: truthiness tests, the or-null defaulting of fare fields, the
nullish-coalescing of the checked-bag quantity, parseFloat returning NaN
instead of throwing, and TypeError on member access of undefined (modelled as
returning none from the normalizer, which the handler turns into an HTTP 500).

JavaScript numbers are modelled as exact decimal fractions num / 10 ^ pow10
(JSNum / JSRat below).  The program performs no arithmetic on numbers: it
only parses them, passes them through, and compares them with <=, so an
unreduced decimal representation with value-level comparison is
observationally faithful, and it keeps every definition computable by the
kernel.  NaN and the infinities get their own constructors since parseFloat
can produce them.
-/

/-! ## JavaScript numbers -/

/-- A finite JSON/JS decimal number, with value num / 10 ^ pow10.  The
fraction is not necessarily reduced; the program never computes with these
values (it only passes them through and compares them by value), so the
representation is never observable. -/
structure JSRat where
  num : ℤ
  pow10 : ℕ
deriving DecidableEq, Repr

/-- An integer-valued JS number. -/
def jsInt (n : ℤ) : JSRat := { num := n, pow10 := 0 }

/-- Value-level comparison a <= b: cross-multiplied by the powers of ten. -/
def jsRatLe (a b : JSRat) : Bool :=
  decide (a.num * (10 : ℤ) ^ b.pow10 ≤ b.num * (10 : ℤ) ^ a.pow10)

/-- A JavaScript number as produced by parseFloat: NaN, an infinity, or a
finite decimal. -/
inductive JSNum where
  | nan : JSNum
  | inf (neg : Bool) : JSNum
  | num (v : JSRat) : JSNum
deriving DecidableEq, Repr

/-- JavaScript truthiness of an optional string: undefined and the empty
string are falsy. -/
def jsTruthyS (v : Option String) : Bool :=
  match v with
  | none => false
  | some s => !s.isEmpty

/-- JavaScript truthiness of an optional JSON number: undefined and 0 are
falsy (NaN cannot appear in a JSON body). -/
def jsTruthyQ (v : Option JSRat) : Bool :=
  match v with
  | none => false
  | some q => decide (q.num ≠ 0)

/-- The comparison price <= C used by the budget filter: false for NaN,
decided by sign for the infinities, value comparison on finite numbers. -/
def jsNumLe (x : JSNum) (c : JSRat) : Bool :=
  match x with
  | JSNum.nan => false
  | JSNum.inf neg => neg
  | JSNum.num q => jsRatLe q c

/-- Whitespace skipped by parseFloat (the common ASCII cases). -/
def jsWhitespace (c : Char) : Bool :=
  c == ' ' || c == '\t' || c == '\n' || c == '\r'

/-- Decimal value of a digit string. -/
def digitsToNat (ds : List Char) : Nat :=
  ds.foldl (fun a c => 10 * a + (c.toNat - 48)) 0

/-- Consume an optional leading sign, returning whether it was a minus. -/
def splitSign : List Char → Bool × List Char
  | '-' :: rest => (true, rest)
  | '+' :: rest => (false, rest)
  | cs => (false, cs)

/-- Exponent part accepted by parseFloat: an optional e/E followed by an
optionally signed digit string; a digitless exponent contributes nothing. -/
def parseExponent (cs : List Char) : ℤ :=
  match cs with
  | [] => 0
  | c :: rest =>
    if c == 'e' || c == 'E' then
      let sr := splitSign rest
      let eds := sr.2.takeWhile Char.isDigit
      if eds.isEmpty then 0
      else if sr.1 then -(digitsToNat eds : ℤ) else (digitsToNat eds : ℤ)
    else 0

/-- Scale a decimal by a power of ten: a nonnegative exponent multiplies the
numerator, a negative one deepens the denominator. -/
def applyExponent (m : JSRat) (e : ℤ) : JSRat :=
  if 0 ≤ e then { num := m.num * (10 : ℤ) ^ e.toNat, pow10 := m.pow10 }
  else { num := m.num, pow10 := m.pow10 + (-e).toNat }

/-- Model of JavaScript parseFloat: skip leading whitespace, take an optional
sign, accept an Infinity literal, else take the longest numeric prefix
(integer digits, optional fraction, optional exponent); if no digit is found
the result is NaN.  parseFloat never throws.  Minus zero is identified with
zero, which is indistinguishable through the comparisons this program makes. -/
def jsParseFloat (s : String) : JSNum :=
  let cs0 := s.toList.dropWhile jsWhitespace
  let sc := splitSign cs0
  let neg := sc.1
  let cs := sc.2
  if cs.take 8 = "Infinity".toList then JSNum.inf neg
  else
    let ip := cs.takeWhile Char.isDigit
    let cs1 := cs.dropWhile Char.isDigit
    let fp :=
      match cs1 with
      | '.' :: rest => rest.takeWhile Char.isDigit
      | _ => []
    let cs2 :=
      match cs1 with
      | '.' :: rest => rest.dropWhile Char.isDigit
      | _ => cs1
    if ip.isEmpty && fp.isEmpty then JSNum.nan
    else
      let mant : JSRat := { num := (digitsToNat (ip ++ fp) : ℤ), pow10 := fp.length }
      let v := applyExponent mant (parseExponent cs2)
      JSNum.num (if neg then { num := -v.num, pow10 := v.pow10 } else v)

/-! ## Data model (RawOffer, per the upstream response shape the code reads) -/

/-- A departure or arrival record: airport code and timestamp.  The source
field named at is a Lean keyword, rendered here as atTime. -/
structure AirportTime where
  iataCode : String
  atTime : String
deriving DecidableEq, Repr

/-- One flight segment of an itinerary. -/
structure Segment where
  id : String
  departure : AirportTime
  arrival : AirportTime
  carrierCode : String
  number : String
deriving DecidableEq, Repr

/-- One itinerary: duration string plus its ordered segments. -/
structure Itinerary where
  duration : String
  segments : List Segment
deriving DecidableEq, Repr

/-- The includedCheckedBags object of a fare detail; its quantity field may
itself be absent. -/
structure CheckedBagInfo where
  quantity : Option ℤ
deriving DecidableEq, Repr

/-- One fare-detail entry of a traveler-pricing record.  Every attribute
field is independently optional.  The source field named class is a Lean
keyword, rendered here as fareClass. -/
structure FareDetail where
  segmentId : String
  cabin : Option String
  fareClass : Option String
  brandedFare : Option String
  fareBasis : Option String
  includedCheckedBags : Option CheckedBagInfo
deriving DecidableEq, Repr

/-- One traveler-pricing record.  The fare-detail list may be absent; the
code reads it through fareDetailsBySegment or-default-empty, so the none and
some-empty cases behave identically downstream. -/
structure TravelerPricing where
  fareDetailsBySegment : Option (List FareDetail)
deriving DecidableEq, Repr

/-- The price object of an offer: the total is a string that the normalizer
parses. -/
structure OfferPrice where
  total : String
  currency : String
deriving DecidableEq, Repr

/-- A raw provider offer, restricted to the fields the code reads.  An absent
travelerPricings array is modelled as the empty list: the code reads it only
through optional-chain index 0 with an or-empty-object default, under which
absent and empty are indistinguishable. -/
structure RawOffer where
  id : String
  price : OfferPrice
  itineraries : List Itinerary
  travelerPricings : List TravelerPricing
deriving DecidableEq, Repr

/-! ## Fare Attribution Resolver (the segmentFareMap block of mapOfferToOption) -/

/-- The 5-tuple of fare attributes the resolver stores per segment id. -/
structure FareAttr where
  cabin : Option String
  fareClass : Option String
  brandedFare : Option String
  fareBasis : Option String
  checkedBags : Option ℤ
deriving DecidableEq, Repr

/-- The all-null fallback tuple (the fallbackFare constant in the source). -/
def fallbackFare : FareAttr :=
  { cabin := none, fareClass := none, brandedFare := none, fareBasis := none,
    checkedBags := none }

/-- JavaScript or-null on an optional string field: absent gives null, and a
present empty string is falsy so it also gives null. -/
def jsOrNullStr (v : Option String) : Option String :=
  match v with
  | none => none
  | some s => if s.isEmpty then none else some s

/-- The tuple stored for one fare-detail entry: each string attribute goes
through or-null (so absent and empty collapse to null), while checkedBags
uses nullish coalescing on includedCheckedBags quantity (so a quantity of 0
is preserved). -/
def mkFareAttr (fd : FareDetail) : FareAttr :=
  { cabin := jsOrNullStr fd.cabin,
    fareClass := jsOrNullStr fd.fareClass,
    brandedFare := jsOrNullStr fd.brandedFare,
    fareBasis := jsOrNullStr fd.fareBasis,
    checkedBags := fd.includedCheckedBags.bind (fun b => b.quantity) }

/-- One forEach step of building segmentFareMap: assign the tuple at the
entry's segment id, overwriting any earlier entry for the same id. -/
def fareStep (m : String → Option FareAttr) (fd : FareDetail) :
    String → Option FareAttr :=
  fun k => if k = fd.segmentId then some (mkFareAttr fd) else m k

/-- The segmentFareMap built by the forEach loop, as a lookup function:
keys absent from the fare-detail list map to none. -/
def segmentFareMap (fds : List FareDetail) : String → Option FareAttr :=
  fds.foldl fareStep (fun _ => none)

/-- The fare-detail list the resolver iterates: first traveler-pricing record
or-empty-object, then its fareDetailsBySegment or-empty-array. -/
def offerFareDetails (offer : RawOffer) : List FareDetail :=
  match offer.travelerPricings.head? with
  | none => []
  | some t => t.fareDetailsBySegment.getD []

/-! ## Offer Normalizer (mapOfferToOption) -/

/-- A normalized per-segment record of an Option. The source fields named
from and to are Lean keywords, rendered as fromCode and toCode. -/
structure OptionSegment where
  fromCode : String
  toCode : String
  departureTime : String
  arrivalTime : String
  carrier : String
  flightNumber : String
  cabin : Option String
  fareClass : Option String
  brandedFare : Option String
  fareBasis : Option String
  checkedBags : Option ℤ
deriving DecidableEq, Repr

/-- A normalized Option record.  There is no offer-level class field in the
source output, so none appears here. -/
structure FlightOption where
  id : String
  price : JSNum
  currency : String
  duration : String
  airline : String
  cabin : Option String
  brandedFare : Option String
  fareBasis : Option String
  checkedBags : Option ℤ
  segments : List OptionSegment
deriving DecidableEq, Repr

/-- The per-segment mapping step of the normalizer: look the segment id up in
the fare map, falling back to the all-null tuple on a miss. -/
def segmentOut (fareMap : String → Option FareAttr) (s : Segment) : OptionSegment :=
  let fareInfo := (fareMap s.id).getD fallbackFare
  { fromCode := s.departure.iataCode,
    toCode := s.arrival.iataCode,
    departureTime := s.departure.atTime,
    arrivalTime := s.arrival.atTime,
    carrier := s.carrierCode,
    flightNumber := s.number,
    cabin := fareInfo.cabin,
    fareClass := fareInfo.fareClass,
    brandedFare := fareInfo.brandedFare,
    fareBasis := fareInfo.fareBasis,
    checkedBags := fareInfo.checkedBags }

/-- mapOfferToOption.  The two none branches are the TypeErrors the source
raises: with zero itineraries, reading segments of undefined throws; with
zero segments, reading id of undefined throws in the offer-level fare lines
(the optional chain on airline does not save it).  Offer-level fare fields
are the fare map entry for the first segment's id, read through an optional
chain with nullish coalescing to null. -/
def mapOfferToOption (offer : RawOffer) : Option FlightOption :=
  match offer.itineraries with
  | [] => none
  | firstItinerary :: _ =>
    match firstItinerary.segments with
    | [] => none
    | s0 :: restSegs =>
      let fareMap := segmentFareMap (offerFareDetails offer)
      some
        { id := offer.id,
          price := jsParseFloat offer.price.total,
          currency := offer.price.currency,
          duration := firstItinerary.duration,
          airline := s0.carrierCode,
          cabin := (fareMap s0.id).bind (fun a => a.cabin),
          brandedFare := (fareMap s0.id).bind (fun a => a.brandedFare),
          fareBasis := (fareMap s0.id).bind (fun a => a.fareBasis),
          checkedBags := (fareMap s0.id).bind (fun a => a.checkedBags),
          segments := (s0 :: restSegs).map (segmentOut fareMap) }

/-! ## Requests, queries, and the search orchestrator (/search_flights) -/

/-- One leg spec of a multi-city request; each field may be absent. -/
structure LegSpec where
  origin : Option String
  destination : Option String
  date : Option String
deriving DecidableEq, Repr

/-- The inbound request body after destructuring defaults: tripType defaults
to oneway, adults to 1, currency to KWD, max to 5.  A segments value that is
absent or not an array is modelled as none, which is exactly what the
Array.isArray guard tests. -/
structure SearchRequest where
  tripType : String := "oneway"
  origin : Option String := none
  destination : Option String := none
  departureDate : Option String := none
  returnDate : Option String := none
  segments : Option (List LegSpec) := none
  adults : JSRat := jsInt 1
  currency : String := "KWD"
  max : JSRat := jsInt 5
  maxPrice : Option JSRat := none
  travelClass : Option String := none
deriving DecidableEq, Repr

/-- The upstream query parameter set for one provider call.  Optional fields
are none when the corresponding key is not set on the params object. -/
structure QueryParams where
  originLocationCode : String
  destinationLocationCode : String
  departureDate : String
  adults : JSRat
  currencyCode : String
  max : JSRat
  returnDate : Option String := none
  maxPrice : Option JSRat := none
  travelClass : Option String := none
deriving DecidableEq, Repr

/-- The shared request parameters the handler closure carries into each leg
query (destructured once at the top of the handler). -/
structure SharedQuery where
  adults : JSRat
  currency : String
  max : JSRat
  maxPrice : Option JSRat
  travelClass : Option String
deriving DecidableEq, Repr

/-- The shared parameters of a request. -/
def sharedOf (req : SearchRequest) : SharedQuery :=
  { adults := req.adults, currency := req.currency, max := req.max,
    maxPrice := req.maxPrice, travelClass := req.travelClass }

/-- The Leg Query Builder: the params object literal plus the conditional
assignments.  maxPrice and travelClass are set only when truthy (so an
absent value is omitted, never sent as null or empty); returnDate is passed
through as given by the caller's trip-type branch. -/
def buildParams (origin destination date : String) (sq : SharedQuery)
    (returnDate : Option String) : QueryParams :=
  { originLocationCode := origin,
    destinationLocationCode := destination,
    departureDate := date,
    adults := sq.adults,
    currencyCode := sq.currency,
    max := sq.max,
    returnDate := returnDate,
    maxPrice := if jsTruthyQ sq.maxPrice then sq.maxPrice else none,
    travelClass := if jsTruthyS sq.travelClass then sq.travelClass else none }

/-- The single query of the oneway / roundtrip path; returnDate is set only
on the roundtrip branch.  Validation guarantees the getD defaults are never
used. -/
def singleLegParams (req : SearchRequest) : QueryParams :=
  buildParams (req.origin.getD "") (req.destination.getD "")
    (req.departureDate.getD "") (sharedOf req)
    (if req.tripType = "roundtrip" then req.returnDate else none)

/-- The query of one multi-city leg. -/
def legParams (sq : SharedQuery) (s : LegSpec) : QueryParams :=
  buildParams (s.origin.getD "") (s.destination.getD "") (s.date.getD "") sq none

/-- The upstream interactions a handler run performs, in order. -/
inductive UpstreamCall where
  | tokenCall : UpstreamCall
  | searchCall (params : QueryParams) : UpstreamCall
deriving DecidableEq, Repr

/-- The validation error messages the handler can send with HTTP 400,
as an enumeration (their text plays no role in the claims; note that the
per-leg message is a constant carrying no leg index). -/
inductive ErrMsg where
  | missingRequiredFields : ErrMsg
  | returnDateRequired : ErrMsg
  | segmentsArrayRequired : ErrMsg
  | segmentFieldsRequired : ErrMsg
  | unsupportedTripType : ErrMsg
deriving DecidableEq, Repr

/-- One leg entry of a multi-city response; origin, destination and date echo
the leg spec fields verbatim. -/
structure Leg where
  legIndex : ℕ
  origin : Option String
  destination : Option String
  date : Option String
  options : List FlightOption
deriving DecidableEq, Repr

/-- A segment record of the basic handler in src/app.js (no fare fields). -/
structure BasicSegment where
  fromCode : String
  toCode : String
  departureTime : String
  arrivalTime : String
  carrier : String
  flightNumber : String
deriving DecidableEq, Repr

/-- An option record of the basic handler in src/app.js: summary fields only,
airline through an optional chain (none when the itinerary has no segments,
which does not throw there). -/
structure BasicOption where
  id : String
  price : JSNum
  currency : String
  duration : String
  airline : Option String
  segments : List BasicSegment
deriving DecidableEq, Repr

/-- The success-response bodies: the oneway/roundtrip shape (returnDate
echoed only for roundtrip, otherwise the key is omitted), the multi-city
shape, and the basic handler's options-only shape. -/
inductive ResponseBody where
  | single (tripType : String) (origin destination departureDate : Option String)
      (returnDate : Option String) (options : List FlightOption) : ResponseBody
  | multiCity (adults : JSRat) (currency : String) (max : JSRat)
      (maxPrice : Option JSRat) (legs : List Leg) : ResponseBody
  | optionsOnly (options : List BasicOption) : ResponseBody
deriving DecidableEq, Repr

/-- The handler outcome at the HTTP boundary: 200 with a body, 400 with a
validation error, or the catch-all 500. -/
inductive HandlerResponse where
  | ok (body : ResponseBody) : HandlerResponse
  | badRequest (error : ErrMsg) : HandlerResponse
  | serverError : HandlerResponse
deriving DecidableEq, Repr

/-- offers.map over a fallible normalizer: a JavaScript map call propagates a
thrown TypeError, so one bad offer aborts the whole mapping. -/
def normalizeAll {β : Type} (f : RawOffer → Option β) : List RawOffer → Option (List β)
  | [] => some []
  | o :: rest =>
    match f o, normalizeAll f rest with
    | some x, some xs => some (x :: xs)
    | _, _ => none

/-- The client-side budget filter, applied only when maxPrice is truthy. -/
def applyBudgetFilter (mp : Option JSRat) (opts : List FlightOption) : List FlightOption :=
  if jsTruthyQ mp then opts.filter (fun o => jsNumLe o.price (mp.getD (jsInt 0))) else opts

/-- The maxPrice echo of the multi-city response: maxPrice or-undefined, so a
falsy value is omitted. -/
def echoMaxPrice (mp : Option JSRat) : Option JSRat :=
  if jsTruthyQ mp then mp else none

/-- Whether a leg spec passes the per-leg validation (all three fields
truthy). -/
def legSpecValid (s : LegSpec) : Bool :=
  jsTruthyS s.origin && jsTruthyS s.destination && jsTruthyS s.date

/-- The multi-city for-loop.  Each iteration validates its leg spec (a
failure returns 400 immediately, after the earlier iterations' upstream
calls have already happened), issues that leg's provider call, normalizes
and filters, and pushes a Leg whose 1-based index is the position in the
accumulated list. -/
def runMultiLegs (env : QueryParams → List RawOffer) (sq : SharedQuery) :
    List LegSpec → List Leg → List UpstreamCall →
    HandlerResponse × List UpstreamCall
  | [], legsAcc, calls =>
    (HandlerResponse.ok
      (ResponseBody.multiCity sq.adults sq.currency sq.max
        (echoMaxPrice sq.maxPrice) legsAcc), calls)
  | seg :: rest, legsAcc, calls =>
    if !jsTruthyS seg.origin || !jsTruthyS seg.destination || !jsTruthyS seg.date then
      (HandlerResponse.badRequest ErrMsg.segmentFieldsRequired, calls)
    else
      let params := legParams sq seg
      match normalizeAll mapOfferToOption (env params) with
      | none => (HandlerResponse.serverError, calls ++ [UpstreamCall.searchCall params])
      | some opts =>
        runMultiLegs env sq rest
          (legsAcc ++ [{ legIndex := legsAcc.length + 1, origin := seg.origin,
                         destination := seg.destination, date := seg.date,
                         options := applyBudgetFilter sq.maxPrice opts }])
          (calls ++ [UpstreamCall.searchCall params])

/-- The trip-type-aware /search_flights handler.  The environment function
stands for a provider whose calls succeed, returning the data array
or-default-empty of each search response; handler-level failures modelled
here are the ones the claims are about (validation and normalization).  Note
the token is fetched before any validation runs, so every path's call trace
starts with tokenCall. -/
def searchFlights (req : SearchRequest) (env : QueryParams → List RawOffer) :
    HandlerResponse × List UpstreamCall :=
  let calls : List UpstreamCall := [UpstreamCall.tokenCall]
  if req.tripType = "oneway" ∨ req.tripType = "roundtrip" then
    if !jsTruthyS req.origin || !jsTruthyS req.destination || !jsTruthyS req.departureDate then
      (HandlerResponse.badRequest ErrMsg.missingRequiredFields, calls)
    else if req.tripType = "roundtrip" ∧ jsTruthyS req.returnDate = false then
      (HandlerResponse.badRequest ErrMsg.returnDateRequired, calls)
    else
      let params := singleLegParams req
      match normalizeAll mapOfferToOption (env params) with
      | none => (HandlerResponse.serverError, calls ++ [UpstreamCall.searchCall params])
      | some opts =>
        (HandlerResponse.ok
          (ResponseBody.single req.tripType req.origin req.destination
            req.departureDate
            (if req.tripType = "roundtrip" then req.returnDate else none)
            (applyBudgetFilter req.maxPrice opts)),
         calls ++ [UpstreamCall.searchCall params])
  else if req.tripType = "multi" then
    match req.segments with
    | none => (HandlerResponse.badRequest ErrMsg.segmentsArrayRequired, calls)
    | some segs =>
      if segs.isEmpty then
        (HandlerResponse.badRequest ErrMsg.segmentsArrayRequired, calls)
      else runMultiLegs env (sharedOf req) segs [] calls
  else
    (HandlerResponse.badRequest ErrMsg.unsupportedTripType, calls)

/-! ## The basic handler (src/app.js) -/

/-- The inline offer mapping of src/app.js: throws only when the offer has no
itineraries (reading duration of undefined); an empty segment list is safe
there because every segment access is an optional chain or a map. -/
def basicMapOfferToOption (offer : RawOffer) : Option BasicOption :=
  match offer.itineraries with
  | [] => none
  | firstItinerary :: _ =>
    some
      { id := offer.id,
        price := jsParseFloat offer.price.total,
        currency := offer.price.currency,
        duration := firstItinerary.duration,
        airline := firstItinerary.segments.head?.map (fun s => s.carrierCode),
        segments := firstItinerary.segments.map (fun s =>
          { fromCode := s.departure.iataCode,
            toCode := s.arrival.iataCode,
            departureTime := s.departure.atTime,
            arrivalTime := s.arrival.atTime,
            carrier := s.carrierCode,
            flightNumber := s.number }) }

/-- The basic /search_flights handler of src/app.js: no trip types, no
optional query fields, and - unlike the trip-type-aware handler - validation
runs before the token is fetched, so a validation failure performs no
upstream call at all. -/
def basicSearchFlights (req : SearchRequest) (env : QueryParams → List RawOffer) :
    HandlerResponse × List UpstreamCall :=
  if !jsTruthyS req.origin || !jsTruthyS req.destination || !jsTruthyS req.departureDate then
    (HandlerResponse.badRequest ErrMsg.missingRequiredFields, [])
  else
    let params : QueryParams :=
      { originLocationCode := req.origin.getD "",
        destinationLocationCode := req.destination.getD "",
        departureDate := req.departureDate.getD "",
        adults := req.adults,
        currencyCode := req.currency,
        max := req.max }
    match normalizeAll basicMapOfferToOption (env params) with
    | none => (HandlerResponse.serverError, [UpstreamCall.tokenCall, UpstreamCall.searchCall params])
    | some opts =>
      (HandlerResponse.ok (ResponseBody.optionsOnly opts),
       [UpstreamCall.tokenCall, UpstreamCall.searchCall params])

/-! ## Derived definitions and concrete test data for the claims -/

/-- The last fare-detail entry for a segment id, if any. -/
def lastFareEntry (fds : List FareDetail) (S : String) : Option FareDetail :=
  fds.reverse.find? (fun fd => fd.segmentId == S)

/-- The 5-tuple the original claim prescribes for a fare-detail entry: every
present field taken as-is, every absent field mapped to null (checkedBags
being the included-checked-bag quantity when present). -/
def presentFieldsTuple (fd : FareDetail) : FareAttr :=
  { cabin := fd.cabin,
    fareClass := fd.fareClass,
    brandedFare := fd.brandedFare,
    fareBasis := fd.fareBasis,
    checkedBags := fd.includedCheckedBags.bind (fun b => b.quantity) }

/-- The 5-tuple the amended claim prescribes: a present nonempty string field
is taken as-is, while an absent or present-but-empty string field becomes
null; checkedBags is the included-checked-bag quantity when the bag object
and its quantity are present (a quantity of zero is preserved), else null. -/
def amendedFieldsTuple (fd : FareDetail) : FareAttr :=
  { cabin :=
      match fd.cabin with
      | none => none
      | some c => if c = "" then none else some c,
    fareClass :=
      match fd.fareClass with
      | none => none
      | some c => if c = "" then none else some c,
    brandedFare :=
      match fd.brandedFare with
      | none => none
      | some c => if c = "" then none else some c,
    fareBasis :=
      match fd.fareBasis with
      | none => none
      | some c => if c = "" then none else some c,
    checkedBags :=
      match fd.includedCheckedBags with
      | none => none
      | some b => b.quantity }

def c1xFd : FareDetail :=
  { segmentId := "1", cabin := some "", fareClass := none, brandedFare := none,
    fareBasis := none, includedCheckedBags := none }

def c1wFd : FareDetail :=
  { segmentId := "7", cabin := some "ECONOMY", fareClass := some "Y",
    brandedFare := none, fareBasis := some "YECO",
    includedCheckedBags := some { quantity := some 0 } }

def c7wSeg : Segment :=
  { id := "1",
    departure := { iataCode := "KWI", atTime := "2025-06-01T08:00" },
    arrival := { iataCode := "DXB", atTime := "2025-06-01T10:30" },
    carrierCode := "KU", number := "101" }

def c7wItin : Itinerary := { duration := "PT2H30M", segments := [c7wSeg] }

def c7wOffer : RawOffer :=
  { id := "o1", price := { total := "100.00", currency := "KWD" },
    itineraries := [c7wItin], travelerPricings := [] }

def c4xReq : SearchRequest := { tripType := "oneway" }

def c4wReq : SearchRequest := { tripType := "chartered" }

def c5vLeg : LegSpec :=
  { origin := some "KWI", destination := some "DXB", date := some "2025-01-01" }

def c5xLeg : LegSpec :=
  { origin := some "DXB", destination := none, date := some "2025-01-05" }

def c5xReq : SearchRequest :=
  { tripType := "multi", segments := some [c5vLeg, c5xLeg] }

def c5xReqSwapped : SearchRequest :=
  { tripType := "multi", segments := some [c5xLeg, c5vLeg] }

/-- The Leg the loop pushes for the leg spec at 0-based position n, written
as a function of the environment. -/
def legEntry (env : QueryParams → List RawOffer) (sq : SharedQuery) (n : ℕ)
    (s : LegSpec) : Leg :=
  { legIndex := n + 1, origin := s.origin, destination := s.destination,
    date := s.date,
    options := applyBudgetFilter sq.maxPrice
      ((normalizeAll mapOfferToOption (env (legParams sq s))).getD []) }

/-- The Leg list produced for a run of leg specs starting at 0-based
position n. -/
def expectedLegs (env : QueryParams → List RawOffer) (sq : SharedQuery) :
    ℕ → List LegSpec → List Leg
  | _, [] => []
  | n, s :: rest => legEntry env sq n s :: expectedLegs env sq (n + 1) rest

def c8wLeg1 : LegSpec :=
  { origin := some "KWI", destination := some "DXB", date := some "2025-03-01" }

def c8wLeg2 : LegSpec :=
  { origin := some "DXB", destination := some "LHR", date := some "2025-03-05" }

def c8wReq : SearchRequest :=
  { tripType := "multi", segments := some [c8wLeg1, c8wLeg2] }

def c6wOffer : RawOffer :=
  { id := "bad", price := { total := "10.00", currency := "KWD" },
    itineraries := [], travelerPricings := [] }

def c6wReq : SearchRequest :=
  { tripType := "oneway", origin := some "KWI", destination := some "DXB",
    departureDate := some "2025-06-01" }

def c2Seg : Segment :=
  { id := "1",
    departure := { iataCode := "KWI", atTime := "2025-06-01T08:00" },
    arrival := { iataCode := "DXB", atTime := "2025-06-01T10:00" },
    carrierCode := "KU", number := "101" }

def c2Offer : RawOffer :=
  { id := "offer1", price := { total := "250", currency := "KWD" },
    itineraries := [{ duration := "PT2H", segments := [c2Seg] }],
    travelerPricings := [] }

def c2OptionSeg : OptionSegment :=
  { fromCode := "KWI", toCode := "DXB", departureTime := "2025-06-01T08:00",
    arrivalTime := "2025-06-01T10:00", carrier := "KU", flightNumber := "101",
    cabin := none, fareClass := none, brandedFare := none, fareBasis := none,
    checkedBags := none }

def c2Option : FlightOption :=
  { id := "offer1", price := JSNum.num (jsInt 250), currency := "KWD",
    duration := "PT2H", airline := "KU", cabin := none, brandedFare := none,
    fareBasis := none, checkedBags := none, segments := [c2OptionSeg] }

def c2xReq : SearchRequest :=
  { tripType := "oneway", origin := some "KWI", destination := some "DXB",
    departureDate := some "2025-06-01", maxPrice := some (jsInt 0) }

def c2Offer2 : RawOffer :=
  { id := "offer2", price := { total := "400", currency := "KWD" },
    itineraries := [{ duration := "PT2H", segments := [c2Seg] }],
    travelerPricings := [] }

def c2Option2 : FlightOption :=
  { id := "offer2", price := JSNum.num (jsInt 400), currency := "KWD",
    duration := "PT2H", airline := "KU", cabin := none, brandedFare := none,
    fareBasis := none, checkedBags := none, segments := [c2OptionSeg] }

def c2wReq : SearchRequest :=
  { tripType := "oneway", origin := some "KWI", destination := some "DXB",
    departureDate := some "2025-06-01", maxPrice := some (jsInt 300) }

def c3Seg : Segment :=
  { id := "1",
    departure := { iataCode := "KWI", atTime := "2025-06-01T08:00" },
    arrival := { iataCode := "DXB", atTime := "2025-06-01T10:00" },
    carrierCode := "KU", number := "101" }

def c3Itin : Itinerary := { duration := "PT2H", segments := [c3Seg] }

def c3Offer : RawOffer :=
  { id := "bad1", price := { total := "abc", currency := "KWD" },
    itineraries := [c3Itin], travelerPricings := [] }

def c3Option : FlightOption :=
  { id := "bad1", price := JSNum.nan, currency := "KWD", duration := "PT2H",
    airline := "KU", cabin := none, brandedFare := none, fareBasis := none,
    checkedBags := none,
    segments := [{ fromCode := "KWI", toCode := "DXB",
                   departureTime := "2025-06-01T08:00",
                   arrivalTime := "2025-06-01T10:00", carrier := "KU",
                   flightNumber := "101", cabin := none, fareClass := none,
                   brandedFare := none, fareBasis := none, checkedBags := none }] }

def c3xReq : SearchRequest :=
  { tripType := "oneway", origin := some "KWI", destination := some "DXB",
    departureDate := some "2025-06-01" }

def c9wReq : SearchRequest :=
  { tripType := "roundtrip", origin := some "KWI", destination := some "LHR",
    departureDate := some "2025-07-01", returnDate := some "2025-07-10" }

def c9wShared : SharedQuery :=
  { adults := jsInt 2, currency := "KWD", max := jsInt 5, maxPrice := none,
    travelClass := none }

def c9wLeg : LegSpec :=
  { origin := some "KWI", destination := some "DXB", date := some "2025-07-01" }

/-! ## Evaluation checks for the parseFloat model -/

example : jsParseFloat "542.30" = JSNum.num { num := 54230, pow10 := 2 } := by decide
example : jsParseFloat "250" = JSNum.num (jsInt 250) := by decide
example : jsParseFloat "abc" = JSNum.nan := by decide
example : jsParseFloat "" = JSNum.nan := by decide
example : jsParseFloat "  -12.5e1x" = JSNum.num { num := -1250, pow10 := 1 } := by decide
example : jsParseFloat "1e-2" = JSNum.num { num := 1, pow10 := 2 } := by decide
example : jsParseFloat "Infinity" = JSNum.inf false := by decide
example : jsParseFloat "0x1A" = JSNum.num (jsInt 0) := by decide
example : jsRatLe { num := 54230, pow10 := 2 } (jsInt 543) = true := by decide
example : jsRatLe { num := 54230, pow10 := 2 } (jsInt 542) = false := by decide

/-! ## Helper lemmas -/

/-- Folding fareStep computes, at any key, the tuple of the last matching
fare-detail entry, deferring to the initial map when no entry matches. -/
theorem foldl_fareStep_eq (fds : List FareDetail) (m : String → Option FareAttr)
    (k : String) :
    (fds.foldl fareStep m) k =
      match fds.reverse.find? (fun fd => fd.segmentId == k) with
      | some fd => some (mkFareAttr fd)
      | none => m k := by
  induction fds generalizing m with
  | nil => rfl
  | cons fd rest ih =>
    simp only [List.foldl_cons, List.reverse_cons, List.find?_append]
    rw [ih]
    cases h : rest.reverse.find? (fun fd => fd.segmentId == k) with
    | some fd2 => simp [Option.or]
    | none =>
      simp only [Option.or_none, Option.or]
      by_cases hk : fd.segmentId = k
      · simp [List.find?, hk, fareStep]
      · have hk2 : (fd.segmentId == k) = false := by
          simp [hk]
        have hk3 : ¬ k = fd.segmentId := fun h => hk h.symm
        simp [List.find?, hk2, fareStep, hk3]

/-- segmentFareMap lookup, characterized through lastFareEntry. -/
theorem segmentFareMap_eq (fds : List FareDetail) (S : String) :
    segmentFareMap fds S =
      match lastFareEntry fds S with
      | some fd => some (mkFareAttr fd)
      | none => none := foldl_fareStep_eq fds (fun _ => none) S

/-! ## Claim C1: the Fare Attribution Resolver -/

/-- The or-null defaulting written out the way the amended claim words it. -/
theorem jsOrNullStr_eq (v : Option String) :
    jsOrNullStr v =
      match v with
      | none => none
      | some c => if c = "" then none else some c := by
  cases v with
  | none => rfl
  | some s => simp only [jsOrNullStr, String.isEmpty_iff]

/-- The resolver's per-entry tuple agrees with the amended claim's tuple. -/
theorem mkFareAttr_eq_amended (fd : FareDetail) :
    mkFareAttr fd = amendedFieldsTuple fd := by
  obtain ⟨sid, c, fc, bf, fb, bags⟩ := fd
  simp only [mkFareAttr, amendedFieldsTuple, jsOrNullStr_eq]
  cases bags <;> rfl

/-- Claim C1 counterexample: a fare-detail entry for segment 1 whose cabin is
present as the empty string.  The claim as stated demands that present fields
be taken as-is, so the output tuple for segment 1 would have cabin equal to
the empty string; the code's or-null defaulting maps the falsy empty string
to null instead, so the resolver yields the all-null tuple, which differs
from the tuple the claim prescribes. -/
theorem c1_counterexample :
    segmentFareMap [c1xFd] "1" = some fallbackFare ∧
    some fallbackFare ≠ some (presentFieldsTuple c1xFd) := by decide

/-- Claim C1 (amended): for every fare-detail list of the first
traveler-pricing record containing an entry for segment identifier S, the
resolver's mapping has S as a key (never omits it, never throws), and maps S
to the 5-tuple of the last entry for S, where a present nonempty string
field is kept, an absent or empty string field becomes null, and checkedBags
is the present quantity (zero preserved) or null. -/
theorem c1_fare_attribution_resolver (fds : List FareDetail) (S : String)
    (fd : FareDetail) (hmem : fd ∈ fds) (hS : fd.segmentId = S) :
    (segmentFareMap fds S).isSome = true ∧
    ∀ fd2, lastFareEntry fds S = some fd2 →
      segmentFareMap fds S = some (amendedFieldsTuple fd2) := by
  have hfind : (lastFareEntry fds S).isSome := by
    rw [lastFareEntry, List.find?_isSome]
    exact ⟨fd, List.mem_reverse.mpr hmem, by simp [hS]⟩
  obtain ⟨fd2, hfd2⟩ := Option.isSome_iff_exists.mp hfind
  have hmap := segmentFareMap_eq fds S
  rw [hfd2] at hmap
  constructor
  · rw [hmap]; rfl
  · intro fd3 hfd3
    rw [hfd3] at hfd2
    injection hfd2 with he
    rw [he, hmap]
    exact congrArg some (mkFareAttr_eq_amended fd2)

/-- Concrete instance of the C1 theorem: a singleton fare-detail list for
segment 7. -/
theorem c1_fare_attribution_resolver_witness :
    (segmentFareMap [c1wFd] "7").isSome = true ∧
    ∀ fd2, lastFareEntry [c1wFd] "7" = some fd2 →
      segmentFareMap [c1wFd] "7" = some (amendedFieldsTuple fd2) :=
  c1_fare_attribution_resolver [c1wFd] "7" c1wFd (by simp) (by rfl)

/-! ## Claim C7: absent fare data yields an empty mapping and an all-null Option -/

/-- Claim C7: for an offer with no traveler-pricing records, or whose first
record has no fare-detail entries, the resolver's fare-detail list is empty,
the mapping is empty (every lookup misses), and the normalizer still
produces an Option whose offer-level fare fields and all per-segment fare
fields are null. -/
theorem c7_empty_fare_data (offer : RawOffer) (itin : Itinerary)
    (irest : List Itinerary) (s0 : Segment) (srest : List Segment)
    (hi : offer.itineraries = itin :: irest)
    (hs : itin.segments = s0 :: srest)
    (htp : offer.travelerPricings = [] ∨
      ∃ t ts, offer.travelerPricings = t :: ts ∧
        (t.fareDetailsBySegment = none ∨ t.fareDetailsBySegment = some [])) :
    offerFareDetails offer = [] ∧
    (∀ k, segmentFareMap (offerFareDetails offer) k = none) ∧
    ∃ opt, mapOfferToOption offer = some opt ∧
      opt.cabin = none ∧ opt.brandedFare = none ∧ opt.fareBasis = none ∧
      opt.checkedBags = none ∧
      ∀ s ∈ opt.segments, s.cabin = none ∧ s.fareClass = none ∧
        s.brandedFare = none ∧ s.fareBasis = none ∧ s.checkedBags = none := by
  have hfd : offerFareDetails offer = [] := by
    rcases htp with h | ⟨t, ts, ht, hfdb⟩
    · simp [offerFareDetails, h]
    · rcases hfdb with h2 | h2 <;> simp [offerFareDetails, ht, h2]
  have hmiss : ∀ k, segmentFareMap (offerFareDetails offer) k = none := by
    intro k; rw [hfd]; rfl
  refine ⟨hfd, hmiss, ?_⟩
  simp only [mapOfferToOption, hi, hs]
  refine ⟨_, rfl, ?_, ?_, ?_, ?_, ?_⟩
  · simp [hmiss]
  · simp [hmiss]
  · simp [hmiss]
  · simp [hmiss]
  · intro s hsmem
    obtain ⟨s2, _, rfl⟩ := List.mem_map.mp hsmem
    simp [segmentOut, hmiss, fallbackFare]

/-- Concrete instance of the C7 theorem: an offer with one itinerary, one
segment, and no traveler-pricing records. -/
theorem c7_empty_fare_data_witness :
    offerFareDetails c7wOffer = [] ∧
    (∀ k, segmentFareMap (offerFareDetails c7wOffer) k = none) ∧
    ∃ opt, mapOfferToOption c7wOffer = some opt ∧
      opt.cabin = none ∧ opt.brandedFare = none ∧ opt.fareBasis = none ∧
      opt.checkedBags = none ∧
      ∀ s ∈ opt.segments, s.cabin = none ∧ s.fareClass = none ∧
        s.brandedFare = none ∧ s.fareBasis = none ∧ s.checkedBags = none :=
  c7_empty_fare_data c7wOffer c7wItin [] c7wSeg [] rfl rfl (Or.inl rfl)

/-! ## normalizeAll lemmas -/

/-- One unmappable offer aborts the whole offers.map call. -/
theorem normalizeAll_none_of_mem {β : Type} (f : RawOffer → Option β)
    (l : List RawOffer) (o : RawOffer) (hmem : o ∈ l) (hf : f o = none) :
    normalizeAll f l = none := by
  induction l with
  | nil => cases hmem
  | cons a rest ih =>
    rcases List.mem_cons.mp hmem with h | h
    · subst h; unfold normalizeAll; rw [hf]
    · unfold normalizeAll; rw [ih h]; cases f a <;> rfl

/-! ## Unfolding lemmas for the handler branches -/

/-- The single-leg branch under passing validation: one provider call with
the single-leg query, then the normalize / filter / respond pipeline. -/
theorem searchFlights_single_valid (req : SearchRequest)
    (env : QueryParams → List RawOffer)
    (ht : req.tripType = "oneway" ∨ req.tripType = "roundtrip")
    (hv : (!jsTruthyS req.origin || !jsTruthyS req.destination ||
      !jsTruthyS req.departureDate) = false)
    (hrd : ¬(req.tripType = "roundtrip" ∧ jsTruthyS req.returnDate = false)) :
    searchFlights req env =
      match normalizeAll mapOfferToOption (env (singleLegParams req)) with
      | none => (HandlerResponse.serverError,
          [UpstreamCall.tokenCall, UpstreamCall.searchCall (singleLegParams req)])
      | some opts =>
        (HandlerResponse.ok
          (ResponseBody.single req.tripType req.origin req.destination
            req.departureDate
            (if req.tripType = "roundtrip" then req.returnDate else none)
            (applyBudgetFilter req.maxPrice opts)),
         [UpstreamCall.tokenCall, UpstreamCall.searchCall (singleLegParams req)]) := by
  simp only [searchFlights]
  rw [if_pos ht, if_neg (by simp [hv]), if_neg hrd]
  cases hn : normalizeAll mapOfferToOption (env (singleLegParams req))
  · rfl
  · rfl

/-- The single-leg branch when a required field is missing: 400 right away,
with the token already fetched and no search call. -/
theorem searchFlights_single_invalid (req : SearchRequest)
    (env : QueryParams → List RawOffer)
    (ht : req.tripType = "oneway" ∨ req.tripType = "roundtrip")
    (hv : (!jsTruthyS req.origin || !jsTruthyS req.destination ||
      !jsTruthyS req.departureDate) = true) :
    searchFlights req env =
      (HandlerResponse.badRequest ErrMsg.missingRequiredFields,
       [UpstreamCall.tokenCall]) := by
  simp only [searchFlights]
  rw [if_pos ht, if_pos hv]

/-- The roundtrip branch when returnDate is missing: 400 right away, with
the token already fetched and no search call. -/
theorem searchFlights_roundtrip_noReturnDate (req : SearchRequest)
    (env : QueryParams → List RawOffer)
    (ht : req.tripType = "roundtrip")
    (hv : (!jsTruthyS req.origin || !jsTruthyS req.destination ||
      !jsTruthyS req.departureDate) = false)
    (hrd : jsTruthyS req.returnDate = false) :
    searchFlights req env =
      (HandlerResponse.badRequest ErrMsg.returnDateRequired,
       [UpstreamCall.tokenCall]) := by
  simp only [searchFlights]
  rw [if_pos (Or.inr ht), if_neg (by simp [hv]), if_pos ⟨ht, hrd⟩]

/-- The multi branch with a usable segments array: the per-leg loop, seeded
with the token call. -/
theorem searchFlights_multi (req : SearchRequest)
    (env : QueryParams → List RawOffer) (segs : List LegSpec)
    (ht : req.tripType = "multi") (hsegs : req.segments = some segs)
    (hne : segs.isEmpty = false) :
    searchFlights req env =
      runMultiLegs env (sharedOf req) segs [] [UpstreamCall.tokenCall] := by
  have h1 : ¬(req.tripType = "oneway" ∨ req.tripType = "roundtrip") := by
    rw [ht]; rintro (h | h) <;> exact absurd h (by decide)
  simp only [searchFlights]
  rw [if_neg h1, if_pos ht, hsegs]
  simp [hne]

/-- The multi branch when segments is absent, not an array, or empty: 400
with the token already fetched and no search call. -/
theorem searchFlights_multi_noSegments (req : SearchRequest)
    (env : QueryParams → List RawOffer)
    (ht : req.tripType = "multi")
    (hsegs : req.segments = none ∨ req.segments = some []) :
    searchFlights req env =
      (HandlerResponse.badRequest ErrMsg.segmentsArrayRequired,
       [UpstreamCall.tokenCall]) := by
  have h1 : ¬(req.tripType = "oneway" ∨ req.tripType = "roundtrip") := by
    rw [ht]; rintro (h | h) <;> exact absurd h (by decide)
  simp only [searchFlights]
  rw [if_neg h1, if_pos ht]
  rcases hsegs with h | h
  · rw [h]
  · rw [h]; rfl

/-- The unsupported trip-type branch: 400 with the token already fetched. -/
theorem searchFlights_unsupported (req : SearchRequest)
    (env : QueryParams → List RawOffer)
    (h1 : ¬(req.tripType = "oneway" ∨ req.tripType = "roundtrip"))
    (h2 : req.tripType ≠ "multi") :
    searchFlights req env =
      (HandlerResponse.badRequest ErrMsg.unsupportedTripType,
       [UpstreamCall.tokenCall]) := by
  simp only [searchFlights]
  rw [if_neg h1, if_neg h2]

/-! ## runMultiLegs lemmas -/

/-- A 400 out of the per-leg loop always carries the constant per-leg
message: the loop has no other validation failure. -/
theorem runMultiLegs_badRequest_msg (env : QueryParams → List RawOffer)
    (sq : SharedQuery) (segs : List LegSpec) (acc : List Leg)
    (calls : List UpstreamCall) (e : ErrMsg) (tr : List UpstreamCall)
    (h : runMultiLegs env sq segs acc calls = (HandlerResponse.badRequest e, tr)) :
    e = ErrMsg.segmentFieldsRequired := by
  induction segs generalizing acc calls with
  | nil => simp [runMultiLegs] at h
  | cons seg rest ih =>
    simp only [runMultiLegs] at h
    by_cases hv : (!jsTruthyS seg.origin || !jsTruthyS seg.destination ||
        !jsTruthyS seg.date) = true
    · rw [if_pos hv] at h
      injection h with h1 h2
      injection h1 with he
      exact he.symm
    · rw [if_neg hv] at h
      cases hn : normalizeAll mapOfferToOption (env (legParams sq seg)) with
      | none => rw [hn] at h; simp at h
      | some opts => rw [hn] at h; exact ih _ _ h

/-- An invalid leg spec fails the combined truthiness guard. -/
theorem legSpecValid_false_iff (s : LegSpec) :
    legSpecValid s = false ↔
      (!jsTruthyS s.origin || !jsTruthyS s.destination || !jsTruthyS s.date) = true := by
  unfold legSpecValid
  cases jsTruthyS s.origin <;> cases jsTruthyS s.destination <;>
    cases jsTruthyS s.date <;> simp

/-- A valid leg spec passes the combined truthiness guard. -/
theorem legSpecValid_true_guard (s : LegSpec) (h : legSpecValid s = true) :
    (!jsTruthyS s.origin || !jsTruthyS s.destination || !jsTruthyS s.date) = false := by
  unfold legSpecValid at h
  cases h1 : jsTruthyS s.origin <;> cases h2 : jsTruthyS s.destination <;>
    cases h3 : jsTruthyS s.date <;> simp_all

/-- Running the loop on a prefix of valid, normalizable legs followed by an
invalid leg: the loop issues one search call per valid prefix leg, then
aborts with the constant 400 before calling upstream for the invalid leg or
any later leg. -/
theorem runMultiLegs_first_invalid (env : QueryParams → List RawOffer)
    (sq : SharedQuery) (pre : List LegSpec) (seg : LegSpec) (post : List LegSpec)
    (acc : List Leg) (calls : List UpstreamCall)
    (hpre : ∀ s ∈ pre, legSpecValid s = true)
    (hnorm : ∀ s ∈ pre,
      (normalizeAll mapOfferToOption (env (legParams sq s))).isSome = true)
    (hbad : legSpecValid seg = false) :
    runMultiLegs env sq (pre ++ seg :: post) acc calls =
      (HandlerResponse.badRequest ErrMsg.segmentFieldsRequired,
       calls ++ pre.map (fun s => UpstreamCall.searchCall (legParams sq s))) := by
  induction pre generalizing acc calls with
  | nil =>
    rw [List.nil_append]
    simp only [runMultiLegs]
    rw [if_pos ((legSpecValid_false_iff seg).mp hbad)]
    simp
  | cons s pre2 ih =>
    have hv := legSpecValid_true_guard s (hpre s (List.mem_cons_self s pre2))
    obtain ⟨opts, hopts⟩ := Option.isSome_iff_exists.mp
      (hnorm s (List.mem_cons_self s pre2))
    have h2 := ih
      (acc ++
        [{ legIndex := acc.length + 1, origin := s.origin,
           destination := s.destination, date := s.date,
           options := applyBudgetFilter sq.maxPrice opts }])
      (calls ++ [UpstreamCall.searchCall (legParams sq s)])
      (fun x hx => hpre x (List.mem_cons_of_mem s hx))
      (fun x hx => hnorm x (List.mem_cons_of_mem s hx))
    show runMultiLegs env sq (s :: (pre2 ++ seg :: post)) acc calls = _
    simp only [runMultiLegs]
    rw [if_neg (by simp [hv]), hopts]
    show runMultiLegs env sq (pre2 ++ seg :: post) _ _ = _
    rw [h2]
    simp

/-! ## Claim C4: validation versus upstream calls -/

/-- Claim C4 counterexample: a oneway request with every required field
absent.  The handler answers 400 as claimed, but its call trace already
contains the authentication token call, issued before validation runs - the
claim says no upstream call at all is attempted before validation passes. -/
theorem c4_counterexample :
    (searchFlights c4xReq (fun _ => [])).1 =
      HandlerResponse.badRequest ErrMsg.missingRequiredFields ∧
    (searchFlights c4xReq (fun _ => [])).2 = [UpstreamCall.tokenCall] := by decide

/-- Claim C4 (amended): in the trip-type-aware handler, any validation
failure other than the per-leg multi-city one (settled by C5) is answered
with the token call already issued and no flight-offer-search call; the
basic handler of src/app.js, by contrast, validates before fetching the
token, so its validation failure performs no upstream call at all. -/
theorem c4_validation_and_upstream_calls (req req2 : SearchRequest)
    (env env2 : QueryParams → List RawOffer) (e : ErrMsg)
    (hresp : (searchFlights req env).1 = HandlerResponse.badRequest e)
    (hne : e ≠ ErrMsg.segmentFieldsRequired)
    (hb : (!jsTruthyS req2.origin || !jsTruthyS req2.destination ||
      !jsTruthyS req2.departureDate) = true) :
    (searchFlights req env).2 = [UpstreamCall.tokenCall] ∧
    basicSearchFlights req2 env2 =
      (HandlerResponse.badRequest ErrMsg.missingRequiredFields, []) := by
  constructor
  · by_cases ht : req.tripType = "oneway" ∨ req.tripType = "roundtrip"
    · by_cases hv : (!jsTruthyS req.origin || !jsTruthyS req.destination ||
          !jsTruthyS req.departureDate) = true
      · rw [searchFlights_single_invalid req env ht hv]
      · rw [Bool.not_eq_true] at hv
        by_cases hrd : req.tripType = "roundtrip" ∧ jsTruthyS req.returnDate = false
        · rw [searchFlights_roundtrip_noReturnDate req env hrd.1 hv hrd.2]
        · rw [searchFlights_single_valid req env ht hv hrd] at hresp ⊢
          cases hn : normalizeAll mapOfferToOption (env (singleLegParams req)) with
          | none => rw [hn] at hresp; simp at hresp
          | some opts => rw [hn] at hresp; simp at hresp
    · by_cases hm : req.tripType = "multi"
      · cases hsegs : req.segments with
        | none =>
          rw [searchFlights_multi_noSegments req env hm (Or.inl hsegs)]
        | some segs =>
          by_cases hemp : segs.isEmpty = true
          · rw [List.isEmpty_iff] at hemp
            subst hemp
            rw [searchFlights_multi_noSegments req env hm (Or.inr hsegs)]
          · rw [Bool.not_eq_true] at hemp
            rw [searchFlights_multi req env segs hm hsegs hemp] at hresp
            have hpair : runMultiLegs env (sharedOf req) segs [] [UpstreamCall.tokenCall] =
                (HandlerResponse.badRequest e,
                 (runMultiLegs env (sharedOf req) segs [] [UpstreamCall.tokenCall]).2) := by
              rw [← hresp]
            exact absurd
              (runMultiLegs_badRequest_msg env (sharedOf req) segs [] [UpstreamCall.tokenCall]
                e _ hpair) hne
      · rw [searchFlights_unsupported req env ht hm]
  · unfold basicSearchFlights
    rw [if_pos hb]

/-- Concrete instance of the C4 theorem: an unsupported trip type on the
trip-type-aware handler and a fieldless request on the basic handler. -/
theorem c4_validation_and_upstream_calls_witness :
    (searchFlights c4wReq (fun _ => [])).2 = [UpstreamCall.tokenCall] ∧
    basicSearchFlights { tripType := "oneway" } (fun _ => []) =
      (HandlerResponse.badRequest ErrMsg.missingRequiredFields, []) :=
  c4_validation_and_upstream_calls c4wReq { tripType := "oneway" } (fun _ => [])
    (fun _ => []) ErrMsg.unsupportedTripType (by decide) (by decide) (by decide)

/-! ## Claim C5: multi-city per-leg validation -/

/-- Claim C5 counterexample: a multi request whose second leg lacks a
destination.  The request is aborted with 400 as claimed, but an upstream
search call for leg 1 has already been issued - the claim says no upstream
leg call happens for any leg - and the error response is identical to the
one produced when leg 1 is the invalid one, so the 1-based failing index is
not identifiable from the response. -/
theorem c5_counterexample :
    (searchFlights c5xReq (fun _ => [])).1 =
      HandlerResponse.badRequest ErrMsg.segmentFieldsRequired ∧
    UpstreamCall.searchCall (legParams (sharedOf c5xReq) c5vLeg) ∈
      (searchFlights c5xReq (fun _ => [])).2 ∧
    (searchFlights c5xReqSwapped (fun _ => [])).1 =
      (searchFlights c5xReq (fun _ => [])).1 := by decide

/-- Claim C5 (amended): the first invalid leg spec aborts the whole multi
request with the constant per-leg 400 (the failing index is not part of the
response); no upstream search call is issued for the failing leg or any
later leg, but each valid leg before it has already received its one
upstream search call, in request order, after the initial token call. -/
theorem c5_first_invalid_leg (req : SearchRequest)
    (env : QueryParams → List RawOffer) (pre : List LegSpec) (seg : LegSpec)
    (post : List LegSpec)
    (ht : req.tripType = "multi")
    (hsegs : req.segments = some (pre ++ seg :: post))
    (hpre : ∀ s ∈ pre, legSpecValid s = true)
    (hnorm : ∀ s ∈ pre,
      (normalizeAll mapOfferToOption (env (legParams (sharedOf req) s))).isSome = true)
    (hbad : legSpecValid seg = false) :
    searchFlights req env =
      (HandlerResponse.badRequest ErrMsg.segmentFieldsRequired,
       UpstreamCall.tokenCall ::
         pre.map (fun s => UpstreamCall.searchCall (legParams (sharedOf req) s))) := by
  have hne : (pre ++ seg :: post).isEmpty = false := by
    cases pre <;> rfl
  rw [searchFlights_multi req env _ ht hsegs hne,
    runMultiLegs_first_invalid env (sharedOf req) pre seg post [] [UpstreamCall.tokenCall]
      hpre hnorm hbad]
  rfl

/-- Concrete instance of the C5 theorem: one valid leg followed by an
invalid one, against a provider returning no offers. -/
theorem c5_first_invalid_leg_witness :
    searchFlights c5xReq (fun _ => []) =
      (HandlerResponse.badRequest ErrMsg.segmentFieldsRequired,
       UpstreamCall.tokenCall ::
         [c5vLeg].map (fun s => UpstreamCall.searchCall (legParams (sharedOf c5xReq) s))) :=
  c5_first_invalid_leg c5xReq (fun _ => []) [c5vLeg] c5xLeg [] rfl rfl
    (by decide) (by decide) (by decide)

/-! ## Claim C8: multi-city response shape -/

theorem expectedLegs_length (env : QueryParams → List RawOffer)
    (sq : SharedQuery) (n : ℕ) (segs : List LegSpec) :
    (expectedLegs env sq n segs).length = segs.length := by
  induction segs generalizing n with
  | nil => rfl
  | cons s rest ih => simp [expectedLegs, ih]

theorem expectedLegs_get (env : QueryParams → List RawOffer) (sq : SharedQuery)
    (n : ℕ) (segs : List LegSpec) (i : ℕ)
    (hi : i < (expectedLegs env sq n segs).length) (hi2 : i < segs.length) :
    (expectedLegs env sq n segs).get ⟨i, hi⟩ =
      legEntry env sq (n + i) (segs.get ⟨i, hi2⟩) := by
  induction segs generalizing n i with
  | nil => exact absurd hi2 (Nat.not_lt_zero i)
  | cons s rest ih =>
    cases i with
    | zero => simp [expectedLegs]
    | succ j =>
      have hj : j < (expectedLegs env sq (n + 1) rest).length := by
        simp only [expectedLegs, List.length_cons] at hi
        omega
      have hj2 : j < rest.length := by
        simp only [List.length_cons] at hi2
        omega
      show (expectedLegs env sq (n + 1) rest).get ⟨j, hj⟩ = _
      rw [ih (n + 1) j hj hj2]
      have : n + 1 + j = n + (j + 1) := by omega
      rw [this]
      rfl

/-- Running the loop over valid, normalizable leg specs produces the 200
multi-city body whose legs extend the accumulator with one entry per spec,
and one search call per spec in order. -/
theorem runMultiLegs_all_valid (env : QueryParams → List RawOffer)
    (sq : SharedQuery) (segs : List LegSpec) (acc : List Leg)
    (calls : List UpstreamCall)
    (hvalid : ∀ s ∈ segs, legSpecValid s = true)
    (hnorm : ∀ s ∈ segs,
      (normalizeAll mapOfferToOption (env (legParams sq s))).isSome = true) :
    runMultiLegs env sq segs acc calls =
      (HandlerResponse.ok (ResponseBody.multiCity sq.adults sq.currency sq.max
        (echoMaxPrice sq.maxPrice) (acc ++ expectedLegs env sq acc.length segs)),
       calls ++ segs.map (fun s => UpstreamCall.searchCall (legParams sq s))) := by
  induction segs generalizing acc calls with
  | nil => simp [runMultiLegs, expectedLegs]
  | cons s rest ih =>
    have hv := legSpecValid_true_guard s (hvalid s (List.mem_cons_self s rest))
    obtain ⟨opts, hopts⟩ := Option.isSome_iff_exists.mp
      (hnorm s (List.mem_cons_self s rest))
    simp only [runMultiLegs]
    rw [if_neg (by simp [hv]), hopts]
    show runMultiLegs env sq rest _ _ = _
    rw [ih _ _ (fun x hx => hvalid x (List.mem_cons_of_mem s hx))
        (fun x hx => hnorm x (List.mem_cons_of_mem s hx))]
    simp [expectedLegs, legEntry, hopts, List.append_assoc]

/-- Claim C8: a multi request with N valid leg specs (against a provider
whose offers all normalize) yields exactly N Leg entries, in request order,
the i-th carrying legIndex i+1 and the i-th spec's origin, destination and
date. -/
theorem c8_multi_city_legs (req : SearchRequest)
    (env : QueryParams → List RawOffer) (segs : List LegSpec)
    (ht : req.tripType = "multi") (hsegs : req.segments = some segs)
    (hne : segs.isEmpty = false)
    (hvalid : ∀ s ∈ segs, legSpecValid s = true)
    (hnorm : ∀ s ∈ segs,
      (normalizeAll mapOfferToOption (env (legParams (sharedOf req) s))).isSome = true) :
    ∃ legs, (searchFlights req env).1 =
        HandlerResponse.ok (ResponseBody.multiCity req.adults req.currency req.max
          (echoMaxPrice req.maxPrice) legs) ∧
      legs.length = segs.length ∧
      ∀ i (hi : i < legs.length) (hi2 : i < segs.length),
        (legs.get ⟨i, hi⟩).legIndex = i + 1 ∧
        (legs.get ⟨i, hi⟩).origin = (segs.get ⟨i, hi2⟩).origin ∧
        (legs.get ⟨i, hi⟩).destination = (segs.get ⟨i, hi2⟩).destination ∧
        (legs.get ⟨i, hi⟩).date = (segs.get ⟨i, hi2⟩).date := by
  refine ⟨expectedLegs env (sharedOf req) 0 segs, ?_,
    expectedLegs_length _ _ _ _, ?_⟩
  · rw [searchFlights_multi req env segs ht hsegs hne,
      runMultiLegs_all_valid env (sharedOf req) segs [] [UpstreamCall.tokenCall]
        hvalid hnorm]
    rfl
  · intro i hi hi2
    rw [expectedLegs_get env (sharedOf req) 0 segs i hi hi2]
    exact ⟨by simp [legEntry], rfl, rfl, rfl⟩

/-- Concrete instance of the C8 theorem: two valid legs against a provider
returning no offers. -/
theorem c8_multi_city_legs_witness :
    ∃ legs, (searchFlights c8wReq (fun _ => [])).1 =
        HandlerResponse.ok (ResponseBody.multiCity c8wReq.adults c8wReq.currency
          c8wReq.max (echoMaxPrice c8wReq.maxPrice) legs) ∧
      legs.length = [c8wLeg1, c8wLeg2].length ∧
      ∀ i (hi : i < legs.length) (hi2 : i < [c8wLeg1, c8wLeg2].length),
        (legs.get ⟨i, hi⟩).legIndex = i + 1 ∧
        (legs.get ⟨i, hi⟩).origin = ([c8wLeg1, c8wLeg2].get ⟨i, hi2⟩).origin ∧
        (legs.get ⟨i, hi⟩).destination =
          ([c8wLeg1, c8wLeg2].get ⟨i, hi2⟩).destination ∧
        (legs.get ⟨i, hi⟩).date = ([c8wLeg1, c8wLeg2].get ⟨i, hi2⟩).date :=
  c8_multi_city_legs c8wReq (fun _ => []) [c8wLeg1, c8wLeg2] rfl rfl rfl
    (by decide) (by decide)

/-! ## Claim C6: malformed offers fail fast -/

/-- Claim C6: an offer with zero itineraries, or whose first itinerary has
zero segments, makes the normalizer throw (none here) rather than emit a
partially-populated Option, and a request whose provider returns such an
offer ends as the catch-all 500. -/
theorem c6_malformed_offer (req : SearchRequest)
    (env : QueryParams → List RawOffer) (offer : RawOffer)
    (ht : req.tripType = "oneway")
    (ho : jsTruthyS req.origin = true) (hd : jsTruthyS req.destination = true)
    (hdd : jsTruthyS req.departureDate = true)
    (hmem : offer ∈ env (singleLegParams req))
    (hmal : offer.itineraries = [] ∨
      ∃ itin rest, offer.itineraries = itin :: rest ∧ itin.segments = []) :
    mapOfferToOption offer = none ∧
    (searchFlights req env).1 = HandlerResponse.serverError := by
  have hnone : mapOfferToOption offer = none := by
    rcases hmal with h | ⟨itin, rest, hi, hs⟩
    · simp [mapOfferToOption, h]
    · simp [mapOfferToOption, hi, hs]
  refine ⟨hnone, ?_⟩
  have hv : (!jsTruthyS req.origin || !jsTruthyS req.destination ||
      !jsTruthyS req.departureDate) = false := by
    rw [ho, hd, hdd]; rfl
  have hrd : ¬(req.tripType = "roundtrip" ∧ jsTruthyS req.returnDate = false) := by
    rintro ⟨h, _⟩; rw [ht] at h; exact absurd h (by decide)
  rw [searchFlights_single_valid req env (Or.inl ht) hv hrd,
    normalizeAll_none_of_mem mapOfferToOption _ offer hmem hnone]

/-- Concrete instance of the C6 theorem: a provider returning one offer with
zero itineraries. -/
theorem c6_malformed_offer_witness :
    mapOfferToOption c6wOffer = none ∧
    (searchFlights c6wReq (fun _ => [c6wOffer])).1 = HandlerResponse.serverError :=
  c6_malformed_offer c6wReq (fun _ => [c6wOffer]) c6wOffer rfl rfl rfl rfl
    (by simp) (Or.inl rfl)

/-! ## Claim C2: the client-side budget filter -/

/-- Claim C2 counterexample: a supplied max-price ceiling of 0 with one
offer priced 250.  The claim says that whenever a ceiling is supplied the
response keeps exactly the options priced at most the ceiling - here none -
but 0 is falsy, the filter is skipped entirely, and the 250-priced option is
returned. -/
theorem c2_counterexample :
    (searchFlights c2xReq (fun _ => [c2Offer])).1 =
      HandlerResponse.ok (ResponseBody.single "oneway" (some "KWI") (some "DXB")
        (some "2025-06-01") none [c2Option]) ∧
    jsNumLe c2Option.price (jsInt 0) = false := by decide

/-- Claim C2 (amended): for a supplied nonzero ceiling C, the oneway
response's options are exactly the normalized options filtered to price at
most C (NaN compares false); the filtered list is a sublist of the
normalized list (original relative order preserved) and contains exactly the
options whose price passes the comparison; and in the multi-city loop each
assembled Leg likewise carries exactly that leg's normalized options
filtered to the ceiling. -/
theorem c2_budget_filter (req : SearchRequest)
    (env : QueryParams → List RawOffer) (C : JSRat) (opts : List FlightOption)
    (ht : req.tripType = "oneway")
    (ho : jsTruthyS req.origin = true) (hd : jsTruthyS req.destination = true)
    (hdd : jsTruthyS req.departureDate = true)
    (hmp : req.maxPrice = some C) (hC : C.num ≠ 0)
    (hnorm : normalizeAll mapOfferToOption (env (singleLegParams req)) = some opts) :
    (searchFlights req env).1 =
      HandlerResponse.ok (ResponseBody.single "oneway" req.origin req.destination
        req.departureDate none (opts.filter (fun o => jsNumLe o.price C))) ∧
    (opts.filter (fun o => jsNumLe o.price C)).Sublist opts ∧
    (∀ o, o ∈ opts.filter (fun o => jsNumLe o.price C) ↔
      o ∈ opts ∧ jsNumLe o.price C = true) ∧
    (∀ (env2 : QueryParams → List RawOffer) (sq : SharedQuery) (n : ℕ)
      (s : LegSpec) (opts2 : List FlightOption),
      sq.maxPrice = some C →
      normalizeAll mapOfferToOption (env2 (legParams sq s)) = some opts2 →
      (legEntry env2 sq n s).options = opts2.filter (fun o => jsNumLe o.price C)) := by
  refine ⟨?_, List.filter_sublist opts, fun o => List.mem_filter, ?_⟩
  case refine_2 =>
    intro env2 sq n s opts2 hmp2 hnorm2
    simp [legEntry, hnorm2, applyBudgetFilter, hmp2, jsTruthyQ, hC]
  have hv : (!jsTruthyS req.origin || !jsTruthyS req.destination ||
      !jsTruthyS req.departureDate) = false := by
    rw [ho, hd, hdd]; rfl
  have hrd : ¬(req.tripType = "roundtrip" ∧ jsTruthyS req.returnDate = false) := by
    rintro ⟨h, _⟩; rw [ht] at h; exact absurd h (by decide)
  rw [searchFlights_single_valid req env (Or.inl ht) hv hrd, hnorm, ht]
  simp [applyBudgetFilter, hmp, jsTruthyQ, hC]

/-- Concrete instance of the C2 theorem: ceiling 300 over offers priced 250
and 400; only the 250 option survives. -/
theorem c2_budget_filter_witness :
    (searchFlights c2wReq (fun _ => [c2Offer, c2Offer2])).1 =
      HandlerResponse.ok (ResponseBody.single "oneway" (some "KWI") (some "DXB")
        (some "2025-06-01") none
        ([c2Option, c2Option2].filter (fun o => jsNumLe o.price (jsInt 300)))) ∧
    ([c2Option, c2Option2].filter (fun o => jsNumLe o.price (jsInt 300))).Sublist
      [c2Option, c2Option2] ∧
    (∀ o, o ∈ [c2Option, c2Option2].filter (fun o => jsNumLe o.price (jsInt 300)) ↔
      o ∈ [c2Option, c2Option2] ∧ jsNumLe o.price (jsInt 300) = true) ∧
    (∀ (env2 : QueryParams → List RawOffer) (sq : SharedQuery) (n : ℕ)
      (s : LegSpec) (opts2 : List FlightOption),
      sq.maxPrice = some (jsInt 300) →
      normalizeAll mapOfferToOption (env2 (legParams sq s)) = some opts2 →
      (legEntry env2 sq n s).options =
        opts2.filter (fun o => jsNumLe o.price (jsInt 300))) :=
  c2_budget_filter c2wReq (fun _ => [c2Offer, c2Offer2]) (jsInt 300)
    [c2Option, c2Option2] rfl rfl rfl rfl rfl (by decide) (by decide)

/-! ## Claim C3: non-numeric upstream price -/

/-- Claim C3 counterexample: an offer whose total price string abc does not
parse as a number.  parseFloat never throws - it returns NaN - so the
request succeeds with HTTP 200 and the offer is emitted with a NaN price: it
is not a hard 500 failure as the claim states (nor is the offer skipped or
given a substituted default price). -/
theorem c3_counterexample :
    (searchFlights c3xReq (fun _ => [c3Offer])).1 =
      HandlerResponse.ok (ResponseBody.single "oneway" (some "KWI") (some "DXB")
        (some "2025-06-01") none [c3Option]) ∧
    c3Option.price = JSNum.nan := by decide

/-- Claim C3 (amended): an offer whose total price string does not parse as
a number is normalized with the NaN parse result propagated as its price -
no default is substituted and the offer is not skipped - and a oneway
request without a budget ceiling returns HTTP 200 carrying that NaN-priced
option rather than failing with HTTP 500.  (With a truthy ceiling the NaN
option would be dropped by the budget filter, since NaN compares false.) -/
theorem c3_nan_price_propagated (req : SearchRequest)
    (env : QueryParams → List RawOffer) (offer : RawOffer) (itin : Itinerary)
    (irest : List Itinerary) (s0 : Segment) (srest : List Segment)
    (ht : req.tripType = "oneway")
    (ho : jsTruthyS req.origin = true) (hd : jsTruthyS req.destination = true)
    (hdd : jsTruthyS req.departureDate = true)
    (hmp : jsTruthyQ req.maxPrice = false)
    (henv : env (singleLegParams req) = [offer])
    (hi : offer.itineraries = itin :: irest)
    (hs : itin.segments = s0 :: srest)
    (hnan : jsParseFloat offer.price.total = JSNum.nan) :
    ∃ opt, mapOfferToOption offer = some opt ∧ opt.price = JSNum.nan ∧
      (searchFlights req env).1 =
        HandlerResponse.ok (ResponseBody.single "oneway" req.origin
          req.destination req.departureDate none [opt]) := by
  have hopt : mapOfferToOption offer =
      some { id := offer.id,
             price := jsParseFloat offer.price.total,
             currency := offer.price.currency,
             duration := itin.duration,
             airline := s0.carrierCode,
             cabin := (segmentFareMap (offerFareDetails offer) s0.id).bind
               (fun a => a.cabin),
             brandedFare := (segmentFareMap (offerFareDetails offer) s0.id).bind
               (fun a => a.brandedFare),
             fareBasis := (segmentFareMap (offerFareDetails offer) s0.id).bind
               (fun a => a.fareBasis),
             checkedBags := (segmentFareMap (offerFareDetails offer) s0.id).bind
               (fun a => a.checkedBags),
             segments := (s0 :: srest).map
               (segmentOut (segmentFareMap (offerFareDetails offer))) } := by
    simp [mapOfferToOption, hi, hs]
  refine ⟨_, hopt, by simp [hnan], ?_⟩
  have hv : (!jsTruthyS req.origin || !jsTruthyS req.destination ||
      !jsTruthyS req.departureDate) = false := by
    rw [ho, hd, hdd]; rfl
  have hrd : ¬(req.tripType = "roundtrip" ∧ jsTruthyS req.returnDate = false) := by
    rintro ⟨h, _⟩; rw [ht] at h; exact absurd h (by decide)
  have hall : normalizeAll mapOfferToOption (env (singleLegParams req)) =
      some [{ id := offer.id,
              price := jsParseFloat offer.price.total,
              currency := offer.price.currency,
              duration := itin.duration,
              airline := s0.carrierCode,
              cabin := (segmentFareMap (offerFareDetails offer) s0.id).bind
                (fun a => a.cabin),
              brandedFare := (segmentFareMap (offerFareDetails offer) s0.id).bind
                (fun a => a.brandedFare),
              fareBasis := (segmentFareMap (offerFareDetails offer) s0.id).bind
                (fun a => a.fareBasis),
              checkedBags := (segmentFareMap (offerFareDetails offer) s0.id).bind
                (fun a => a.checkedBags),
              segments := (s0 :: srest).map
                (segmentOut (segmentFareMap (offerFareDetails offer))) }] := by
    rw [henv]
    simp [normalizeAll, hopt]
  rw [searchFlights_single_valid req env (Or.inl ht) hv hrd, hall, ht]
  simp [applyBudgetFilter, hmp]

/-- Concrete instance of the C3 theorem at the abc-priced offer. -/
theorem c3_nan_price_propagated_witness :
    ∃ opt, mapOfferToOption c3Offer = some opt ∧ opt.price = JSNum.nan ∧
      (searchFlights c3xReq (fun _ => [c3Offer])).1 =
        HandlerResponse.ok (ResponseBody.single "oneway" c3xReq.origin
          c3xReq.destination c3xReq.departureDate none [opt]) :=
  c3_nan_price_propagated c3xReq (fun _ => [c3Offer]) c3Offer c3Itin [] c3Seg []
    rfl rfl rfl rfl rfl rfl rfl rfl (by decide)

/-! ## Claim C9: the Leg Query Builder -/

/-- A truthiness-guarded optional assignment can only produce a value the
input already held. -/
theorem truthyGuard_some {α : Type} (b : Bool) (v : Option α) (q : α)
    (h : (if b then v else none) = some q) : v = some q := by
  cases b
  · exact absurd h (by simp)
  · exact h

/-- Claim C9: for every leg query, maxPrice and travelClass appear only when
the corresponding request field is present (an absent field is omitted, not
sent as null or empty); and a valid roundtrip request performs exactly one
search call, whose query carries the returnDate (no second leg query). -/
theorem c9_leg_query_builder (req : SearchRequest)
    (env : QueryParams → List RawOffer) (sq : SharedQuery) (ls : LegSpec)
    (ht : req.tripType = "roundtrip")
    (ho : jsTruthyS req.origin = true) (hd : jsTruthyS req.destination = true)
    (hdd : jsTruthyS req.departureDate = true)
    (hrd : jsTruthyS req.returnDate = true) :
    (searchFlights req env).2 =
      [UpstreamCall.tokenCall, UpstreamCall.searchCall (singleLegParams req)] ∧
    (singleLegParams req).returnDate = req.returnDate ∧
    (req.maxPrice = none → (singleLegParams req).maxPrice = none) ∧
    (∀ q, (singleLegParams req).maxPrice = some q → req.maxPrice = some q) ∧
    (req.travelClass = none → (singleLegParams req).travelClass = none) ∧
    (∀ c, (singleLegParams req).travelClass = some c → req.travelClass = some c) ∧
    (sq.maxPrice = none → (legParams sq ls).maxPrice = none) ∧
    (∀ q, (legParams sq ls).maxPrice = some q → sq.maxPrice = some q) ∧
    (sq.travelClass = none → (legParams sq ls).travelClass = none) ∧
    (∀ c, (legParams sq ls).travelClass = some c → sq.travelClass = some c) := by
  have hv : (!jsTruthyS req.origin || !jsTruthyS req.destination ||
      !jsTruthyS req.departureDate) = false := by
    rw [ho, hd, hdd]; rfl
  have hrd2 : ¬(req.tripType = "roundtrip" ∧ jsTruthyS req.returnDate = false) := by
    rintro ⟨_, h⟩; rw [hrd] at h; cases h
  refine ⟨?_, ?_, ?_, ?_, ?_, ?_, ?_, ?_, ?_, ?_⟩
  · rw [searchFlights_single_valid req env (Or.inr ht) hv hrd2]
    cases hn : normalizeAll mapOfferToOption (env (singleLegParams req))
    · rfl
    · rfl
  · simp [singleLegParams, buildParams, ht]
  · intro h; simp [singleLegParams, buildParams, sharedOf, h, jsTruthyQ]
  · intro q hq
    exact truthyGuard_some _ _ _ hq
  · intro h; simp [singleLegParams, buildParams, sharedOf, h, jsTruthyS]
  · intro c hc
    exact truthyGuard_some _ _ _ hc
  · intro h; simp [legParams, buildParams, h, jsTruthyQ]
  · intro q hq
    exact truthyGuard_some _ _ _ hq
  · intro h; simp [legParams, buildParams, h, jsTruthyS]
  · intro c hc
    exact truthyGuard_some _ _ _ hc

/-- Concrete instance of the C9 theorem: a valid roundtrip request without
optional fields, and a shared query without optional fields. -/
theorem c9_leg_query_builder_witness :
    (searchFlights c9wReq (fun _ => [])).2 =
      [UpstreamCall.tokenCall, UpstreamCall.searchCall (singleLegParams c9wReq)] ∧
    (singleLegParams c9wReq).returnDate = c9wReq.returnDate ∧
    (c9wReq.maxPrice = none → (singleLegParams c9wReq).maxPrice = none) ∧
    (∀ q, (singleLegParams c9wReq).maxPrice = some q → c9wReq.maxPrice = some q) ∧
    (c9wReq.travelClass = none → (singleLegParams c9wReq).travelClass = none) ∧
    (∀ c, (singleLegParams c9wReq).travelClass = some c →
      c9wReq.travelClass = some c) ∧
    (c9wShared.maxPrice = none → (legParams c9wShared c9wLeg).maxPrice = none) ∧
    (∀ q, (legParams c9wShared c9wLeg).maxPrice = some q →
      c9wShared.maxPrice = some q) ∧
    (c9wShared.travelClass = none →
      (legParams c9wShared c9wLeg).travelClass = none) ∧
    (∀ c, (legParams c9wShared c9wLeg).travelClass = some c →
      c9wShared.travelClass = some c) :=
  c9_leg_query_builder c9wReq (fun _ => []) c9wShared c9wLeg rfl rfl rfl rfl rfl

/-! ## Claim C10: a falsy maxPrice behaves as absent -/

theorem jsTruthyQ_zero : jsTruthyQ (some (jsInt 0)) = false := by decide

theorem buildParams_maxPrice_zero (o d dt : String) (a m : JSRat) (c : String)
    (tc : Option String) (rd : Option String) :
    buildParams o d dt ⟨a, c, m, some (jsInt 0), tc⟩ rd =
      buildParams o d dt ⟨a, c, m, none, tc⟩ rd := by
  simp [buildParams, jsTruthyQ, jsInt]

theorem applyBudgetFilter_zero (opts : List FlightOption) :
    applyBudgetFilter (some (jsInt 0)) opts = applyBudgetFilter none opts := by
  simp [applyBudgetFilter, jsTruthyQ, jsInt]

theorem runMultiLegs_maxPrice_zero (env : QueryParams → List RawOffer)
    (a m : JSRat) (c : String) (tc : Option String) (segs : List LegSpec)
    (acc : List Leg) (calls : List UpstreamCall) :
    runMultiLegs env ⟨a, c, m, some (jsInt 0), tc⟩ segs acc calls =
      runMultiLegs env ⟨a, c, m, none, tc⟩ segs acc calls := by
  induction segs generalizing acc calls with
  | nil => simp [runMultiLegs, echoMaxPrice, jsTruthyQ, jsInt]
  | cons s rest ih =>
    have hP : legParams ⟨a, c, m, some (jsInt 0), tc⟩ s =
        legParams ⟨a, c, m, none, tc⟩ s := by
      simp [legParams, buildParams_maxPrice_zero]
    simp only [runMultiLegs, hP]
    by_cases hv : (!jsTruthyS s.origin || !jsTruthyS s.destination ||
        !jsTruthyS s.date) = true
    · rw [if_pos hv, if_pos hv]
    · rw [if_neg hv, if_neg hv]
      cases hn : normalizeAll mapOfferToOption (env (legParams ⟨a, c, m, none, tc⟩ s))
      · rfl
      · show runMultiLegs _ _ rest _ _ = runMultiLegs _ _ rest _ _
        rw [applyBudgetFilter_zero]
        exact ih _ _

/-- Claim C10: supplying maxPrice as the falsy value 0 is observationally
identical to omitting it: same response (no upstream maxPrice, no
client-side filtering, no maxPrice echo) and same upstream call trace. -/
theorem c10_falsy_maxPrice_ignored (req : SearchRequest)
    (env : QueryParams → List RawOffer) :
    searchFlights { req with maxPrice := some (jsInt 0) } env =
      searchFlights { req with maxPrice := none } env := by
  have hsp : singleLegParams { req with maxPrice := some (jsInt 0) } =
      singleLegParams { req with maxPrice := none } := by
    simp [singleLegParams, sharedOf, buildParams, jsTruthyQ, jsInt]
  by_cases ht : req.tripType = "oneway" ∨ req.tripType = "roundtrip"
  · by_cases hv : (!jsTruthyS req.origin || !jsTruthyS req.destination ||
        !jsTruthyS req.departureDate) = true
    · rw [searchFlights_single_invalid { req with maxPrice := some (jsInt 0) } env ht hv,
        searchFlights_single_invalid { req with maxPrice := none } env ht hv]
    · rw [Bool.not_eq_true] at hv
      by_cases hrd : req.tripType = "roundtrip" ∧ jsTruthyS req.returnDate = false
      · rw [searchFlights_roundtrip_noReturnDate { req with maxPrice := some (jsInt 0) }
            env hrd.1 hv hrd.2,
          searchFlights_roundtrip_noReturnDate { req with maxPrice := none }
            env hrd.1 hv hrd.2]
      · rw [searchFlights_single_valid { req with maxPrice := some (jsInt 0) } env ht hv hrd,
          searchFlights_single_valid { req with maxPrice := none } env ht hv hrd, hsp]
        cases hn : normalizeAll mapOfferToOption
            (env (singleLegParams { req with maxPrice := none }))
        · rfl
        · simp [applyBudgetFilter, jsTruthyQ, jsInt]
  · by_cases hm : req.tripType = "multi"
    · have hsegs2 : req.segments = none ∨ ∃ segs, req.segments = some segs := by
        cases req.segments
        · exact Or.inl rfl
        · exact Or.inr ⟨_, rfl⟩
      rcases hsegs2 with hsegs | ⟨segs, hsegs⟩
      · rw [searchFlights_multi_noSegments { req with maxPrice := some (jsInt 0) }
            env hm (Or.inl hsegs),
          searchFlights_multi_noSegments { req with maxPrice := none }
            env hm (Or.inl hsegs)]
      · by_cases hemp : segs.isEmpty = true
        · rw [List.isEmpty_iff] at hemp
          subst hemp
          rw [searchFlights_multi_noSegments { req with maxPrice := some (jsInt 0) }
              env hm (Or.inr hsegs),
            searchFlights_multi_noSegments { req with maxPrice := none }
              env hm (Or.inr hsegs)]
        · rw [Bool.not_eq_true] at hemp
          rw [searchFlights_multi { req with maxPrice := some (jsInt 0) }
              env segs hm hsegs hemp,
            searchFlights_multi { req with maxPrice := none }
              env segs hm hsegs hemp]
          exact runMultiLegs_maxPrice_zero env req.adults req.max req.currency
            req.travelClass segs [] [UpstreamCall.tokenCall]
    · rw [searchFlights_unsupported { req with maxPrice := some (jsInt 0) } env ht hm,
        searchFlights_unsupported { req with maxPrice := none } env ht hm]
